import Mathlib

/-!
Shallow embedding of `src/exchanges/retry/src/retryExchange.ts` (the urql
retry exchange) and proofs about its retry/backoff/cancellation coordinator.

The TypeScript module is a reactive pipeline built from wonka combinators.
We embed its pure decision logic directly:

* the JavaScript `||` default-merging on option fields (`jsOrNum`,
  `jsOrNat`, `jsOrBool`) — note that `x || d` falls back to `d` for the
  falsy values `0`, `false` and `undefined`;
* the body of the `mergeMap` callback of `retryWithBackoff$` (`retryStep`),
  parameterised by the value drawn from `Math.random()`;
* the `filter` callback of `result$` (`filterStep`), including its calls to
  `nextRetryOperation` and `dispatchDebug`, reified as data;
* the `delay`/`takeUntil(teardown$)` race as a function of the order in
  which the timer event and inbound operations are observed
  (`retryForwarded` over a list of `RaceEvent`s);
* the sequential feedback loop `ops$ → forward → filter → retry$ →
  retryWithBackoff$ → merge` as a fuelled interpreter (`runLoop`) for the
  uncancelled single-key scenario.
-/

namespace Urql

/-- Operation kinds, `operationName` in the source (`query`, `mutation`,
`subscription`, `teardown`). -/
inductive OperationName where
  | query
  | mutation
  | subscription
  | teardown
deriving DecidableEq

/-- The two coordinator-owned fields of `operation.context`:
`retryCount` and `retryDelay`, both absent until the coordinator sets them. -/
structure OperationContext where
  retryCount : Option Nat
  retryDelay : Option ℚ
deriving DecidableEq

/-- An urql `Operation`: stable identity `key`, a kind, and its context. -/
structure Operation where
  key : Nat
  operationName : OperationName
  context : OperationContext
deriving DecidableEq

/-- An urql `CombinedError`: an optional network-level failure and a list of
structured remote-side (GraphQL) error entries. -/
structure CombinedError where
  networkError : Option String
  graphQLErrors : List String
deriving DecidableEq

/-- An urql `OperationResult`: the operation it answers, an optional error
and an opaque success payload. -/
structure OperationResult where
  operation : Operation
  error : Option CombinedError
  data : Option String
deriving DecidableEq

/-- The two diagnostic kinds the module dispatches via `dispatchDebug`. -/
inductive DebugEventType where
  | retryAttempt
  | retryExhausted
deriving DecidableEq

/-- A dispatched debug event: its type, the operation it concerns, and the
`data.retryCount` payload (present only on `retryAttempt`). -/
structure DebugEvent where
  type : DebugEventType
  operation : Operation
  retryCount : Option Nat
deriving DecidableEq

/-- The constructor options of `retryExchange`, all optional. -/
structure RetryExchangeOptions where
  initialDelayMs : Option ℚ
  maxDelayMs : Option ℚ
  randomDelay : Option Bool
  maxNumberAttempts : Option Nat
  retryIf : Option (CombinedError → Bool)

/-- JavaScript `x || d` on an optional number: `undefined` and `0` are
falsy and fall back to the default. -/
def jsOrNum (o : Option ℚ) (d : ℚ) : ℚ :=
  match o with
  | some x => if x = 0 then d else x
  | none => d

/-- JavaScript `x || d` on an optional natural number. -/
def jsOrNat (o : Option Nat) (d : Nat) : Nat :=
  match o with
  | some x => if x = 0 then d else x
  | none => d

/-- JavaScript `x || d` on an optional boolean: `undefined` and `false`
are falsy and fall back to the default. -/
def jsOrBool (o : Option Bool) (d : Bool) : Bool :=
  match o with
  | some b => b || d
  | none => d

/-- `const MIN_DELAY = initialDelayMs || 1000`. -/
def MIN_DELAY (opts : RetryExchangeOptions) : ℚ :=
  jsOrNum opts.initialDelayMs 1000

/-- `const MAX_DELAY = maxDelayMs || 15000`. -/
def MAX_DELAY (opts : RetryExchangeOptions) : ℚ :=
  jsOrNum opts.maxDelayMs 15000

/-- `const MAX_ATTEMPTS = maxNumberAttempts || 2`. -/
def MAX_ATTEMPTS (opts : RetryExchangeOptions) : Nat :=
  jsOrNat opts.maxNumberAttempts 2

/-- `const RANDOM_DELAY = randomDelay || true`. -/
def RANDOM_DELAY (opts : RetryExchangeOptions) : Bool :=
  jsOrBool opts.randomDelay true

/-- The default retry predicate `(err) => err && err.networkError`: truthy
exactly when the error carries a network-level failure. -/
def defaultRetryIf (err : CombinedError) : Bool :=
  err.networkError.isSome

/-- `const retryIf = retryIfOption || ((err) => err && err.networkError)`. -/
def retryIf (opts : RetryExchangeOptions) : CombinedError → Bool :=
  opts.retryIf.getD defaultRetryIf

/-- `const backoffFactor = Math.random() + 1.5`, with `r` the drawn value. -/
def backoffFactor (r : ℚ) : ℚ :=
  r + 3 / 2

/-- `let delayAmount = context.retryDelay || MIN_DELAY`: the base delay a
retry cycle starts from. -/
def baseDelay (opts : RetryExchangeOptions) (op : Operation) : ℚ :=
  jsOrNum op.context.retryDelay (MIN_DELAY opts)

/-- `if (RANDOM_DELAY && delayAmount * backoffFactor < MAX_DELAY)
  delayAmount *= backoffFactor`. -/
def nextDelay (opts : RetryExchangeOptions) (d f : ℚ) : ℚ :=
  if RANDOM_DELAY opts && decide (d * f < MAX_DELAY opts) then d * f else d

/-- What the `mergeMap` callback of `retryWithBackoff$` computes for one
failed operation: the `retryAttempt` debug event it dispatches, the
re-submitted operation (with updated `retryDelay`/`retryCount` context) and
the delay it will wait. -/
structure RetryComputation where
  debug : DebugEvent
  newOp : Operation
  delayAmount : ℚ
deriving DecidableEq

/-- The body of the `mergeMap` callback of `retryWithBackoff$`, with `r`
standing for the `Math.random()` draw of this cycle. -/
def retryStep (opts : RetryExchangeOptions) (r : ℚ) (op : Operation) :
    RetryComputation :=
  let retryCount := (jsOrNat op.context.retryCount 0) + 1
  let delayAmount := nextDelay opts (baseDelay opts op) (backoffFactor r)
  { debug :=
      { type := DebugEventType.retryAttempt
        operation := op
        retryCount := some retryCount }
    newOp :=
      { op with
          context :=
            { op.context with
                retryDelay := some delayAmount
                retryCount := some retryCount } }
    delayAmount := delayAmount }

/-- What the `filter` callback of `result$` does to one result:
whether the result is kept (delivered to the caller), which operations are
handed to `nextRetryOperation`, and which debug events are dispatched. -/
structure FilterOutcome where
  keep : Bool
  retrySubmissions : List Operation
  diagnostics : List DebugEvent
deriving DecidableEq

/-- The `filter` callback of `result$`: pass through results with no error
or a non-retryable error; re-submit retryable failures below the attempt
bound; on exhaustion dispatch `retryExhausted` and pass the result through. -/
def filterStep (opts : RetryExchangeOptions) (res : OperationResult) :
    FilterOutcome :=
  match res.error with
  | none => { keep := true, retrySubmissions := [], diagnostics := [] }
  | some err =>
    if retryIf opts err = false then
      { keep := true, retrySubmissions := [], diagnostics := [] }
    else if jsOrNat res.operation.context.retryCount 0 ≥
        MAX_ATTEMPTS opts - 1 then
      { keep := true
        retrySubmissions := []
        diagnostics :=
          [{ type := DebugEventType.retryExhausted
             operation := res.operation
             retryCount := none }] }
    else
      { keep := false
        retrySubmissions := [res.operation]
        diagnostics := [] }

/-- The results the `filter` stage delivers downstream for one incoming
result: the unchanged result itself when kept, nothing otherwise. -/
def filterDelivered (opts : RetryExchangeOptions) (res : OperationResult) :
    List OperationResult :=
  if (filterStep opts res).keep then [res] else []

/-- The `filter` inside `teardown$`: an inbound operation cancels the
pending retry of `key` iff it is a `query` or a `teardown` with that key. -/
def cancelsRetry (key : Nat) (op : Operation) : Bool :=
  (decide (op.operationName = OperationName.query)
      || decide (op.operationName = OperationName.teardown))
    && decide (op.key = key)

/-- One event observed by a pending retry while it waits: either an inbound
operation on the shared stream, or its own `delay` timer firing. -/
inductive RaceEvent where
  | inbound (op : Operation)
  | delayElapsed
deriving DecidableEq

/-- The `delay(delayAmount)`/`takeUntil(teardown$)` race: scanning the
events in arrival order, the pending retry is forwarded iff its timer fires
before any cancelling inbound operation; the `takeUntil` closes the source
for good on the first cancelling event. -/
def retryForwarded (key : Nat) : List RaceEvent → Bool
  | [] => false
  | RaceEvent.delayElapsed :: _ => true
  | RaceEvent.inbound op :: rest =>
    if cancelsRetry key op then false else retryForwarded key rest

/-- The results one retry cycle contributes to the caller-visible stream:
`exec` stands for the downstream `forward` executor; nothing is produced
when the race cancels the retry before its delay elapses. -/
def retryCycleResults (exec : Operation → OperationResult) (key : Nat)
    (newOp : Operation) (events : List RaceEvent) : List OperationResult :=
  if retryForwarded key events then [exec newOp] else []

/-- Events on the coordinator's observable timeline. -/
inductive TraceEvent where
  | forwarded (op : Operation)
  | debug (d : DebugEvent)
  | delivered (res : OperationResult)
deriving DecidableEq

/-- The timeline of one pass through the `mergeMap` callback:
`dispatchDebug` fires synchronously when the failed operation is handed to
the backoff path, before `delay` starts; the re-submitted operation is
forwarded afterwards only if the race lets the timer win. -/
def backoffEvents (opts : RetryExchangeOptions) (r : ℚ) (op : Operation)
    (events : List RaceEvent) : List TraceEvent :=
  let rc := retryStep opts r op
  TraceEvent.debug rc.debug ::
    (if retryForwarded op.key events then [TraceEvent.forwarded rc.newOp]
     else [])

/-- The sequential feedback loop for a single key with no concurrent
inbound operations (every pending delay elapses uncontested): forward the
operation, filter its result, and either deliver it (with its diagnostics)
or run the backoff path on the re-submitted operation and loop. `draws`
feeds the successive `Math.random()` values; the fuel only bounds the
recursion and is irrelevant whenever it exceeds the attempt bound. -/
def runLoop (opts : RetryExchangeOptions)
    (exec : Operation → OperationResult) :
    Nat → List ℚ → Operation → List TraceEvent
  | 0, _, _ => []
  | fuel + 1, draws, op =>
    let res := exec op
    let fo := filterStep opts res
    TraceEvent.forwarded op ::
      (if fo.keep then
        fo.diagnostics.map TraceEvent.debug ++ [TraceEvent.delivered res]
      else
        (fo.retrySubmissions.map (fun rop =>
          let rc := retryStep opts (draws.headD 0) rop
          TraceEvent.debug rc.debug ::
            runLoop opts exec fuel draws.tail rc.newOp)).flatten)

/-! ### Concrete fixtures used by the scenario theorems and witnesses -/

/-- An options record with every field left unset (all defaults apply). -/
def defOpts : RetryExchangeOptions :=
  { initialDelayMs := none
    maxDelayMs := none
    randomDelay := none
    maxNumberAttempts := none
    retryIf := none }

/-- The configuration of the three-failure scenario:
`maxNumberAttempts = 3`, `initialDelayMs = 100`, `maxDelayMs = 1000`,
`randomDelay = false`. -/
def cfg1 : RetryExchangeOptions :=
  { initialDelayMs := some 100
    maxDelayMs := some 1000
    randomDelay := some false
    maxNumberAttempts := some 3
    retryIf := none }

/-- An error carrying a network-level failure and no remote entries. -/
def netErr : CombinedError :=
  { networkError := some "connection refused", graphQLErrors := [] }

/-- An error with structured remote-side entries only (no network-level
failure). -/
def remoteErr : CombinedError :=
  { networkError := none, graphQLErrors := ["bad field"] }

/-- A fresh query operation with key 1 and empty retry metadata. -/
def opQ : Operation :=
  { key := 1
    operationName := OperationName.query
    context := { retryCount := none, retryDelay := none } }

/-- A teardown operation for the same key 1. -/
def tdOp : Operation :=
  { key := 1
    operationName := OperationName.teardown
    context := { retryCount := none, retryDelay := none } }

/-- An executor (`forward`) that fails every operation with a network
error. -/
def execFail : Operation → OperationResult :=
  fun op => { operation := op, error := some netErr, data := none }

/-- The network-failure result for the fresh query. -/
def failRes : OperationResult :=
  { operation := opQ, error := some netErr, data := none }

/-- A result failed with remote-side entries only. -/
def remoteRes : OperationResult :=
  { operation := opQ, error := some remoteErr, data := none }

/-- A successful result whose operation already carries `retryCount = 5`. -/
def okRes : OperationResult :=
  { operation :=
      { opQ with context := { retryCount := some 5, retryDelay := none } }
    error := none
    data := some "ok" }

/-- Options overriding `retryIf` with a predicate accepting any error that
has structured remote-side entries. -/
def customOpts : RetryExchangeOptions :=
  { defOpts with retryIf := some (fun e => decide (e.graphQLErrors ≠ [])) }

/-- The first re-submitted operation of the `cfg1` scenario under zero
random draws: the 100ms base delay has been scaled by the factor 1.5. -/
def opRetry1 : Operation :=
  { key := 1
    operationName := OperationName.query
    context := { retryCount := some 1, retryDelay := some 150 } }

/-- The second re-submitted operation of the `cfg1` scenario under zero
random draws: the 150ms delay has been scaled again, to 225ms. -/
def opRetry2 : Operation :=
  { key := 1
    operationName := OperationName.query
    context := { retryCount := some 2, retryDelay := some 225 } }

/-- Whether a trace event is an operation being forwarded to the executor. -/
def isForwardedEvent : TraceEvent → Bool
  | TraceEvent.forwarded _ => true
  | _ => false

/-- Whether a trace event is a `retryAttempt` diagnostic. -/
def isRetryAttemptDebug : TraceEvent → Bool
  | TraceEvent.debug d => decide (d.type = DebugEventType.retryAttempt)
  | _ => false

/-! ### Claims -/

/-- C2: the effective jitter flag is `randomDelay || true`, a boolean-or
fallback, so it is `true` for every configuration; an explicit
`randomDelay: false` behaves exactly like leaving the option unset, and no
constructor option can disable the jitter multiplier. -/
theorem c2_jitter_flag_always_enabled (opts : RetryExchangeOptions) :
    RANDOM_DELAY opts = true ∧
    RANDOM_DELAY { opts with randomDelay := some false } =
      RANDOM_DELAY { opts with randomDelay := none } := by
  refine ⟨?_, rfl⟩
  cases h : opts.randomDelay with
  | none => simp [RANDOM_DELAY, jsOrBool, h]
  | some b => cases b <;> simp [RANDOM_DELAY, jsOrBool, h]

/-- C8: a result with no error, and a result whose error fails the
configured retry predicate, is delivered to the caller unchanged — no
re-submission and no diagnostic — whatever `retryCount` its operation
already carries. -/
theorem c8_pass_through_unchanged (opts : RetryExchangeOptions)
    (res : OperationResult)
    (h : res.error = none ∨
      ∃ err, res.error = some err ∧ retryIf opts err = false) :
    (filterStep opts res).keep = true ∧
    filterDelivered opts res = [res] ∧
    (filterStep opts res).retrySubmissions = [] ∧
    (filterStep opts res).diagnostics = [] := by
  rcases h with h | ⟨err, he, hp⟩
  · simp [filterStep, filterDelivered, h]
  · simp [filterStep, filterDelivered, he, hp]

/-- C8 witness: the successful result `okRes`, whose operation already
carries `retryCount = 5`, is delivered unchanged under the default
options. -/
theorem c8_pass_through_unchanged_witness :
    okRes.error = none ∧
    (filterStep defOpts okRes).keep = true ∧
    filterDelivered defOpts okRes = [okRes] ∧
    (filterStep defOpts okRes).retrySubmissions = [] ∧
    (filterStep defOpts okRes).diagnostics = [] := by
  have h := c8_pass_through_unchanged defOpts okRes (Or.inl rfl)
  exact ⟨rfl, h.1, h.2.1, h.2.2.1, h.2.2.2⟩

/-- C7: the backoff factor drawn from `Math.random() + 1.5` lies in
`[1.5, 2.5)`; with jitter enabled the delay is scaled by the factor exactly
when `delay * factor < MAX_DELAY`, and whenever
`delay * factor ≥ MAX_DELAY` the delay is left unscaled. -/
theorem c7_backoff_factor_range (opts : RetryExchangeOptions) (r d : ℚ)
    (h0 : 0 ≤ r) (h1 : r < 1) :
    (3 / 2 ≤ backoffFactor r ∧ backoffFactor r < 5 / 2) ∧
    (RANDOM_DELAY opts = true → d * backoffFactor r < MAX_DELAY opts →
      nextDelay opts d (backoffFactor r) = d * backoffFactor r) ∧
    (MAX_DELAY opts ≤ d * backoffFactor r →
      nextDelay opts d (backoffFactor r) = d) := by
  refine ⟨⟨by simp [backoffFactor]; linarith, by simp [backoffFactor]; linarith⟩,
    ?_, ?_⟩
  · intro hrd hlt
    simp [nextDelay, hrd, hlt]
  · intro hge
    simp [nextDelay, not_lt.mpr hge]

/-- C7 witness: at draw `1/2` the factor is `2`; under the default bounds
`100 * 2 < 15000` scales the delay to `200`, while `10000 * 2 ≥ 15000`
leaves `10000` unscaled. -/
theorem c7_backoff_factor_range_witness :
    (0 : ℚ) ≤ 1 / 2 ∧ (1 / 2 : ℚ) < 1 ∧
    (3 / 2 ≤ backoffFactor (1 / 2) ∧ backoffFactor (1 / 2) < 5 / 2) ∧
    nextDelay defOpts 100 (backoffFactor (1 / 2)) = 200 ∧
    nextDelay defOpts 10000 (backoffFactor (1 / 2)) = 10000 := by
  have h := c7_backoff_factor_range defOpts (1 / 2) 100 (by norm_num)
    (by norm_num)
  have h' := c7_backoff_factor_range defOpts (1 / 2) 10000 (by norm_num)
    (by norm_num)
  refine ⟨by norm_num, by norm_num, h.1, ?_,
    h'.2.2 (by norm_num [MAX_DELAY, defOpts, jsOrNum, backoffFactor])⟩
  exact (h.2.1 (by decide)
    (by norm_num [MAX_DELAY, defOpts, jsOrNum, backoffFactor])).trans
    (by norm_num [backoffFactor])

/-- C10: the `retryAttempt` diagnostic is dispatched synchronously when the
failed operation enters the backoff path, before the delay starts: it is
the first event of the backoff timeline for every race outcome, so a retry
later cancelled by a teardown or fresh query still has its `retryAttempt`
diagnostic emitted even though the retry is never forwarded. -/
theorem c10_diag_before_delay (opts : RetryExchangeOptions) (r : ℚ)
    (op : Operation) (events : List RaceEvent) :
    (backoffEvents opts r op events).head? =
      some (TraceEvent.debug (retryStep opts r op).debug) ∧
    (retryStep opts r op).debug.type = DebugEventType.retryAttempt ∧
    (retryForwarded op.key events = false →
      backoffEvents opts r op events =
        [TraceEvent.debug (retryStep opts r op).debug]) := by
  refine ⟨rfl, rfl, fun h => ?_⟩
  simp [backoffEvents, h]

/-- A pending retry is never forwarded when a cancelling inbound operation
is observed before its timer fires. -/
theorem retryForwarded_cancel_first (key : Nat) (c : Operation)
    (post : List RaceEvent) (hc : cancelsRetry key c = true) :
    ∀ pre : List RaceEvent, (∀ e ∈ pre, e ≠ RaceEvent.delayElapsed) →
      retryForwarded key (pre ++ RaceEvent.inbound c :: post) = false := by
  intro pre
  induction pre with
  | nil =>
    intro _
    simp [retryForwarded, hc]
  | cons e rest ih =>
    intro hpre
    cases e with
    | inbound op =>
      cases hcop : cancelsRetry key op with
      | true => simp [retryForwarded, hcop]
      | false =>
        simp only [List.cons_append, retryForwarded, hcop, Bool.false_eq_true,
          if_false]
        exact ih fun e he => hpre e (List.mem_cons_of_mem _ he)
    | delayElapsed => exact absurd rfl (hpre _ (List.mem_cons_self _ _))

/-- A pending retry is forwarded when its timer fires before any cancelling
inbound operation. -/
theorem retryForwarded_delay_first (key : Nat) (post : List RaceEvent) :
    ∀ pre : List RaceEvent,
      (∀ op, RaceEvent.inbound op ∈ pre → cancelsRetry key op = false) →
      retryForwarded key (pre ++ RaceEvent.delayElapsed :: post) = true := by
  intro pre
  induction pre with
  | nil =>
    intro _
    simp [retryForwarded]
  | cons e rest ih =>
    intro hpre
    cases e with
    | inbound op =>
      have hcop : cancelsRetry key op = false :=
        hpre op (List.mem_cons_self _ _)
      simp only [List.cons_append, retryForwarded, hcop, Bool.false_eq_true,
        if_false]
      exact ih fun o ho => hpre o (List.mem_cons_of_mem _ ho)
    | delayElapsed => simp [retryForwarded]

/-- C5: the pending retry of key `k` races its delay timer against the
filtered inbound stream. If a query or teardown with key `k` is observed
before the timer fires, the retry is never forwarded and the cycle
contributes no result to the caller; if the timer fires first, the retry is
forwarded and the cycle produces the executor's result. Whichever event
comes first in the observed order decides the outcome. -/
theorem c5_race_first_event_wins (key : Nat) (pre post : List RaceEvent)
    (c : Operation) (exec : Operation → OperationResult)
    (newOp : Operation) :
    ((∀ e ∈ pre, e ≠ RaceEvent.delayElapsed) → cancelsRetry key c = true →
      retryForwarded key (pre ++ RaceEvent.inbound c :: post) = false ∧
      retryCycleResults exec key newOp
        (pre ++ RaceEvent.inbound c :: post) = []) ∧
    ((∀ op, RaceEvent.inbound op ∈ pre → cancelsRetry key op = false) →
      retryForwarded key (pre ++ RaceEvent.delayElapsed :: post) = true ∧
      retryCycleResults exec key newOp
        (pre ++ RaceEvent.delayElapsed :: post) = [exec newOp]) := by
  constructor
  · intro hpre hc
    have hf := retryForwarded_cancel_first key c post hc pre hpre
    exact ⟨hf, by simp [retryCycleResults, hf]⟩
  · intro hpre
    have hf := retryForwarded_delay_first key post pre hpre
    exact ⟨hf, by simp [retryCycleResults, hf]⟩

/-- C5 witness: a teardown for key 1 arriving with the delay unexpired
suppresses the retry (no result produced); with no prior inbound event the
elapsing delay forwards it (the executor's result is produced). -/
theorem c5_race_first_event_wins_witness :
    cancelsRetry 1 tdOp = true ∧
    retryForwarded 1 [RaceEvent.inbound tdOp, RaceEvent.delayElapsed] =
      false ∧
    retryCycleResults execFail 1 opQ
      [RaceEvent.inbound tdOp, RaceEvent.delayElapsed] = [] ∧
    retryForwarded 1 [RaceEvent.delayElapsed] = true ∧
    retryCycleResults execFail 1 opQ [RaceEvent.delayElapsed] =
      [execFail opQ] := by
  have h := c5_race_first_event_wins 1 [] [RaceEvent.delayElapsed] tdOp
    execFail opQ
  have h' := c5_race_first_event_wins 1 [] [] tdOp execFail opQ
  have ha := h.1 (by simp) (by decide)
  have hb := h'.2 (by simp)
  exact ⟨by decide, ha.1, ha.2, hb.1, hb.2⟩

/-- C3: a failing result whose error passes the retry predicate and whose
operation's `retryCount` (0 if absent) is strictly below
`MAX_ATTEMPTS - 1` is never delivered to the caller, and exactly one
operation — the failed one — is handed to the retry path, whose re-submitted
form carries `retryCount` equal to the previous attempts value plus 1. -/
theorem c3_retryable_resubmitted_once (opts : RetryExchangeOptions)
    (res : OperationResult) (err : CombinedError) (r : ℚ)
    (he : res.error = some err) (hp : retryIf opts err = true)
    (ha : jsOrNat res.operation.context.retryCount 0 <
      MAX_ATTEMPTS opts - 1) :
    (filterStep opts res).keep = false ∧
    filterDelivered opts res = [] ∧
    (filterStep opts res).retrySubmissions = [res.operation] ∧
    (retryStep opts r res.operation).newOp.context.retryCount =
      some (jsOrNat res.operation.context.retryCount 0 + 1) := by
  have hlt :
      ¬ jsOrNat res.operation.context.retryCount 0 ≥ MAX_ATTEMPTS opts - 1 :=
    not_le.mpr ha
  refine ⟨?_, ?_, ?_, ?_⟩ <;>
    simp [filterStep, filterDelivered, retryStep, he, hp, hlt]

/-- C3 witness: under default options a first network failure (attempts 0,
bound `MAX_ATTEMPTS - 1 = 1`) is suppressed and re-submitted once with
`retryCount = 1`. -/
theorem c3_retryable_resubmitted_once_witness :
    failRes.error = some netErr ∧
    retryIf defOpts netErr = true ∧
    jsOrNat failRes.operation.context.retryCount 0 <
      MAX_ATTEMPTS defOpts - 1 ∧
    (filterStep defOpts failRes).keep = false ∧
    filterDelivered defOpts failRes = [] ∧
    (filterStep defOpts failRes).retrySubmissions = [failRes.operation] ∧
    (retryStep defOpts 0 failRes.operation).newOp.context.retryCount =
      some 1 := by
  have h := c3_retryable_resubmitted_once defOpts failRes netErr 0 rfl
    (by decide) (by decide)
  exact ⟨rfl, by decide, by decide, h.1, h.2.1, h.2.2.1, h.2.2.2⟩

/-- Any operation handed to `nextRetryOperation` by the result filter is the
failed result's own operation, and its attempt count was strictly below the
bound. -/
theorem mem_retrySubmissions_lt (opts : RetryExchangeOptions)
    (res : OperationResult) (op' : Operation)
    (h : op' ∈ (filterStep opts res).retrySubmissions) :
    op' = res.operation ∧
    jsOrNat op'.context.retryCount 0 < MAX_ATTEMPTS opts - 1 := by
  cases he : res.error with
  | none => simp [filterStep, he] at h
  | some err =>
    by_cases hp : retryIf opts err = false
    · simp [filterStep, he, hp] at h
    · by_cases ha : jsOrNat res.operation.context.retryCount 0 ≥
        MAX_ATTEMPTS opts - 1
      · simp [filterStep, he, hp, ha] at h
      · simp [filterStep, he, hp, ha] at h
        subst h
        exact ⟨rfl, not_le.mp ha⟩

/-- C4: a failing result whose error passes the retry predicate and whose
operation's `retryCount` (0 if absent) has reached `MAX_ATTEMPTS - 1` is
passed through to the caller (never dropped), produces a `retryExhausted`
diagnostic and is not re-submitted; moreover every operation that is
re-submitted carries `retryCount ≤ MAX_ATTEMPTS - 1`, so no operation is
retried more than `MAX_ATTEMPTS - 1` additional times. -/
theorem c4_exhausted_delivered (opts : RetryExchangeOptions)
    (res : OperationResult) (err : CombinedError)
    (he : res.error = some err) (hp : retryIf opts err = true)
    (ha : jsOrNat res.operation.context.retryCount 0 ≥
      MAX_ATTEMPTS opts - 1) :
    (filterStep opts res).keep = true ∧
    filterDelivered opts res = [res] ∧
    (filterStep opts res).diagnostics =
      [{ type := DebugEventType.retryExhausted
         operation := res.operation
         retryCount := none }] ∧
    (filterStep opts res).retrySubmissions = [] ∧
    (∀ (res' : OperationResult) (op' : Operation) (r : ℚ),
      op' ∈ (filterStep opts res').retrySubmissions →
      jsOrNat (retryStep opts r op').newOp.context.retryCount 0 ≤
        MAX_ATTEMPTS opts - 1) := by
  refine ⟨?_, ?_, ?_, ?_, ?_⟩
  · simp [filterStep, he, hp, ha]
  · simp [filterStep, filterDelivered, he, hp, ha]
  · simp [filterStep, he, hp, ha]
  · simp [filterStep, he, hp, ha]
  · intro res' op' r hmem
    obtain ⟨-, hlt⟩ := mem_retrySubmissions_lt opts res' op' hmem
    have : (retryStep opts r op').newOp.context.retryCount =
        some (jsOrNat op'.context.retryCount 0 + 1) := by
      simp [retryStep]
    rw [this]
    simpa [jsOrNat] using Nat.succ_le_of_lt hlt

/-- C4 witness: under default options (`MAX_ATTEMPTS = 2`) a network
failure whose operation carries `retryCount = 1` is delivered with a
`retryExhausted` diagnostic and not re-submitted. -/
theorem c4_exhausted_delivered_witness :
    ({ operation :=
        { opQ with context := { retryCount := some 1, retryDelay := none } }
       error := some netErr
       data := none } : OperationResult).error = some netErr ∧
    retryIf defOpts netErr = true ∧
    jsOrNat (some 1) 0 ≥ MAX_ATTEMPTS defOpts - 1 ∧
    (filterStep defOpts
      { operation :=
          { opQ with context := { retryCount := some 1, retryDelay := none } }
        error := some netErr
        data := none }).keep = true ∧
    (filterStep defOpts
      { operation :=
          { opQ with context := { retryCount := some 1, retryDelay := none } }
        error := some netErr
        data := none }).retrySubmissions = [] := by
  have h := c4_exhausted_delivered defOpts
    { operation :=
        { opQ with context := { retryCount := some 1, retryDelay := none } }
      error := some netErr
      data := none } netErr rfl (by decide) (by decide)
  exact ⟨rfl, by decide, by decide, h.1, h.2.2.2.1⟩

/-- C9: a retry cycle's base delay is the context's `retryDelay` when that
holds a nonzero value and `MIN_DELAY` when it is absent; the computed delay
is written back as the re-submitted operation's `retryDelay`; and for a
positive base and nonnegative draw the next cycle's base delay is exactly
the delay this cycle computed, so successive retries start from the last
computed delay. -/
theorem c9_delay_persists (opts : RetryExchangeOptions) (r : ℚ)
    (op : Operation) :
    (op.context.retryDelay = none → baseDelay opts op = MIN_DELAY opts) ∧
    (∀ d, op.context.retryDelay = some d → d ≠ 0 →
      baseDelay opts op = d) ∧
    (retryStep opts r op).newOp.context.retryDelay =
      some (retryStep opts r op).delayAmount ∧
    (0 < baseDelay opts op → 0 ≤ r →
      0 < (retryStep opts r op).delayAmount ∧
      baseDelay opts (retryStep opts r op).newOp =
        (retryStep opts r op).delayAmount) := by
  refine ⟨?_, ?_, by simp [retryStep], ?_⟩
  · intro h
    simp [baseDelay, jsOrNum, h]
  · intro d hd hdz
    simp [baseDelay, jsOrNum, hd, hdz]
  · intro hb hr
    have hf : 0 < backoffFactor r := by
      simp only [backoffFactor]
      linarith
    have hpos : 0 < (retryStep opts r op).delayAmount := by
      simp only [retryStep, nextDelay]
      split
      · exact mul_pos hb hf
      · exact hb
    refine ⟨hpos, ?_⟩
    have hne : (retryStep opts r op).delayAmount ≠ 0 := ne_of_gt hpos
    simp only [retryStep, baseDelay, jsOrNum] at hne ⊢
    rw [if_neg hne]

/-- C9 witness: from `opQ` (no stored delay) under default options the base
delay is `MIN_DELAY = 1000`; the first retry stores its computed delay, and
the second cycle starts from exactly that stored value. -/
theorem c9_delay_persists_witness :
    opQ.context.retryDelay = none ∧
    baseDelay defOpts opQ = MIN_DELAY defOpts ∧
    (0 : ℚ) < baseDelay defOpts opQ ∧
    (retryStep defOpts 0 opQ).newOp.context.retryDelay =
      some (retryStep defOpts 0 opQ).delayAmount ∧
    baseDelay defOpts (retryStep defOpts 0 opQ).newOp =
      (retryStep defOpts 0 opQ).delayAmount := by
  have h := c9_delay_persists defOpts 0 opQ
  have hb : (0 : ℚ) < baseDelay defOpts opQ := by
    norm_num [baseDelay, jsOrNum, opQ, MIN_DELAY, defOpts]
  exact ⟨rfl, h.1 rfl, hb, h.2.2.1, (h.2.2.2 hb le_rfl).2⟩

/-- C6: with no `retryIf` option the predicate is the default, true exactly
when the error carries a network-level failure, so an error with only
structured remote entries is passed through rather than retried; a custom
`retryIf` accepting such an error makes the same result be suppressed and
re-submitted instead. -/
theorem c6_default_predicate (opts opts' : RetryExchangeOptions)
    (p : CombinedError → Bool) (err : CombinedError) (res : OperationResult)
    (hnone : opts.retryIf = none) (hsome : opts'.retryIf = some p)
    (he : res.error = some err) :
    (retryIf opts err = true ↔ err.networkError.isSome = true) ∧
    (err.networkError = none →
      (filterStep opts res).keep = true ∧
      (filterStep opts res).retrySubmissions = [] ∧
      filterDelivered opts res = [res]) ∧
    (p err = true →
      jsOrNat res.operation.context.retryCount 0 <
        MAX_ATTEMPTS opts' - 1 →
      (filterStep opts' res).keep = false ∧
      (filterStep opts' res).retrySubmissions = [res.operation] ∧
      filterDelivered opts' res = []) := by
  have hdef : retryIf opts = defaultRetryIf := by
    simp [retryIf, hnone]
  refine ⟨by simp [hdef, defaultRetryIf], ?_, ?_⟩
  · intro hn
    have hfalse : retryIf opts err = false := by
      simp [hdef, defaultRetryIf, hn]
    refine ⟨?_, ?_, ?_⟩ <;> simp [filterStep, filterDelivered, he, hfalse]
  · intro hp ha
    have htrue : retryIf opts' err = true := by
      simp [retryIf, hsome, hp]
    have hlt :
        ¬ jsOrNat res.operation.context.retryCount 0 ≥
          MAX_ATTEMPTS opts' - 1 := not_le.mpr ha
    refine ⟨?_, ?_, ?_⟩ <;>
      simp [filterStep, filterDelivered, he, htrue, hlt]

/-- C6 witness: the remote-only failure `remoteRes` passes through under the
default predicate but is suppressed and re-submitted under `customOpts`,
whose predicate accepts errors with remote entries. -/
theorem c6_default_predicate_witness :
    defOpts.retryIf = none ∧
    remoteErr.networkError = none ∧
    (retryIf defOpts remoteErr = true ↔
      remoteErr.networkError.isSome = true) ∧
    (filterStep defOpts remoteRes).keep = true ∧
    filterDelivered defOpts remoteRes = [remoteRes] ∧
    (filterStep customOpts remoteRes).keep = false ∧
    (filterStep customOpts remoteRes).retrySubmissions =
      [remoteRes.operation] := by
  have h := c6_default_predicate defOpts customOpts
    (fun e => decide (e.graphQLErrors ≠ [])) remoteErr remoteRes rfl rfl rfl
  exact ⟨rfl, rfl, h.1, (h.2.1 rfl).1, (h.2.1 rfl).2.2,
    (h.2.2 (by decide) (by decide)).1, (h.2.2 (by decide) (by decide)).2.1⟩

/-- C10 witness: with a teardown for key 1 arriving before the timer, the
retry of `opQ` is not forwarded, yet its backoff timeline still consists of
exactly the `retryAttempt` diagnostic. -/
theorem c10_diag_before_delay_witness :
    retryForwarded opQ.key [RaceEvent.inbound tdOp] = false ∧
    backoffEvents defOpts 0 opQ [RaceEvent.inbound tdOp] =
      [TraceEvent.debug (retryStep defOpts 0 opQ).debug] ∧
    (retryStep defOpts 0 opQ).debug.type = DebugEventType.retryAttempt := by
  have h := c10_diag_before_delay defOpts 0 opQ [RaceEvent.inbound tdOp]
  exact ⟨by decide, h.2.2 (by decide), h.2.1⟩

/-- C1: with `maxNumberAttempts = 3`, `initialDelayMs = 100`,
`maxDelayMs = 1000`, `randomDelay = false` and three consecutive network
failures (random draws 0), the run forwards exactly three attempts, emits
exactly two `retryAttempt` diagnostics, and delivers the third failure with
a `retryExhausted` diagnostic — but the two retry delays are 150ms and
225ms, not the unscaled 100ms the claim states: `RANDOM_DELAY` is
`randomDelay || true`, so the jitter factor is applied even though
`randomDelay` is explicitly `false`. -/
theorem c1_jitter_divergence :
    runLoop cfg1 execFail 10 [0, 0] opQ =
      [TraceEvent.forwarded opQ,
       TraceEvent.debug
         { type := DebugEventType.retryAttempt
           operation := opQ
           retryCount := some 1 },
       TraceEvent.forwarded opRetry1,
       TraceEvent.debug
         { type := DebugEventType.retryAttempt
           operation := opRetry1
           retryCount := some 2 },
       TraceEvent.forwarded opRetry2,
       TraceEvent.debug
         { type := DebugEventType.retryExhausted
           operation := opRetry2
           retryCount := none },
       TraceEvent.delivered
         { operation := opRetry2, error := some netErr, data := none }] ∧
    (runLoop cfg1 execFail 10 [0, 0] opQ).countP isForwardedEvent = 3 ∧
    (runLoop cfg1 execFail 10 [0, 0] opQ).countP isRetryAttemptDebug = 2 ∧
    RANDOM_DELAY cfg1 = true ∧
    opRetry1.context.retryDelay = some 150 ∧
    opRetry2.context.retryDelay = some 225 ∧
    (150 : ℚ) ≠ 100 := by
  have htrace : runLoop cfg1 execFail 10 [0, 0] opQ =
      [TraceEvent.forwarded opQ,
       TraceEvent.debug
         { type := DebugEventType.retryAttempt
           operation := opQ
           retryCount := some 1 },
       TraceEvent.forwarded opRetry1,
       TraceEvent.debug
         { type := DebugEventType.retryAttempt
           operation := opRetry1
           retryCount := some 2 },
       TraceEvent.forwarded opRetry2,
       TraceEvent.debug
         { type := DebugEventType.retryExhausted
           operation := opRetry2
           retryCount := none },
       TraceEvent.delivered
         { operation := opRetry2, error := some netErr, data := none }] := by
    norm_num [runLoop, filterStep, filterDelivered, retryStep, retryIf,
      defaultRetryIf, nextDelay, baseDelay, backoffFactor, MIN_DELAY,
      MAX_DELAY, MAX_ATTEMPTS, RANDOM_DELAY, jsOrNum, jsOrNat, jsOrBool,
      cfg1, execFail, opQ, netErr, opRetry1, opRetry2]
  refine ⟨htrace, ?_, ?_, by decide, rfl, rfl, by norm_num⟩
  · rw [htrace]
    simp [isForwardedEvent]
  · rw [htrace]
    simp [isRetryAttemptDebug]

end Urql
